import Mathlib

/-!
Shallow embedding of the Observer/Observable/Interface touch-gesture
library from `src/main.ts`.

Modelling conventions:
* Observer references are an abstract identity type `ω` (JS object identity,
  compared with `===`); the heap of observer objects is a function
  `env : ω → Observer` mapping each reference to its current state.
* `customUpdate` callbacks are opaque: a callback is identified by a `Nat`
  tag, and an invocation is recorded as an event carrying the callback tag
  and the payload, rather than executing user code.
* The `subscribers` field is a JS object (string-keyed dictionary) whose
  values are JS arrays that may contain holes (produced by `delete arr[i]`):
  we model it as an association list from `String` to `List (Option ω)`,
  where `none` is a hole.
* Operations that mutate state and may throw return the mutated state
  together with `Option ObsError` (`some e` = the call threw `e`); JS
  exceptions do not roll back mutations that already happened.
* Accessing a property of `undefined` (e.g. `undefined._update` when a
  hole is notified, or `undefined.push` when a key is missing) throws a
  JS `TypeError`; we model it with the `TypeError` error code.
-/

/-- Error conditions thrown by the library (and the JS runtime). -/
inductive ObsError where
  | UnacceptedEventType
  | NoSubscribers
  | ObserverNotFound
  | TagMismatch
  | TypeError
deriving DecidableEq, Repr

/-- Payload delivered to an Observer: `{ eventType, data }` from
`ObserverDataIF` in `src/main.ts`. -/
structure ObserverData (α : Type) where
  eventType : String
  data : α
deriving DecidableEq, Repr

/-- State of an `Observer` object (`src/main.ts` lines 30-86):
the immutable accepted tag and the optional `customUpdate` callback slot
(callbacks are identified by an opaque `Nat`). -/
structure Observer where
  acceptedEventType : String
  customUpdate : Option Nat
deriving DecidableEq, Repr

/-- `Observer.setCustomUpdate` : replaces the callback. -/
def Observer.setCustomUpdate (o : Observer) (callback : Nat) : Observer :=
  { o with customUpdate := some callback }

/-- `Observer.unsetCustomUpdate` : `delete this.customUpdate`. -/
def Observer.unsetCustomUpdate (o : Observer) : Observer :=
  { o with customUpdate := none }

/-- Outcome of a successful `_update` call: either the callback was invoked
with the payload (return value discarded), or the missing-callback warning
was printed. -/
inductive UpdateOutcome (α : Type) where
  | invoked (callback : Nat) (payload : ObserverData α)
  | warned
deriving DecidableEq, Repr

/-- `Observer._update(data)` (`src/main.ts` lines 69-85): throws on a tag
mismatch; otherwise warns if `customUpdate` is unset (the only falsy value
its type admits is `undefined`), else invokes the callback with the data. -/
def Observer.update (o : Observer) (d : ObserverData α) :
    Except ObsError (UpdateOutcome α) :=
  if d.eventType ≠ o.acceptedEventType then
    .error .TagMismatch
  else
    match o.customUpdate with
    | none => .ok .warned
    | some callback => .ok (.invoked callback d)

/-- State of an `Observable` (`src/main.ts` lines 91-182): the accepted tag
list and the string-keyed dictionary of subscriber arrays (arrays may
contain holes, `none`). -/
structure Observable (ω : Type) where
  acceptedEventTypes : List String
  subscribers : List (String × List (Option ω))
deriving DecidableEq, Repr

/-- Write `subs[t] = l` on a JS dictionary modelled as an association list:
overwrite the existing entry for `t`, or add one. -/
def setKey (subs : List (String × List (Option ω))) (t : String)
    (l : List (Option ω)) : List (String × List (Option ω)) :=
  match subs with
  | [] => [(t, l)]
  | (k, v) :: rest => if k = t then (t, l) :: rest else (k, v) :: setKey rest t l

/-- Read `subs[t]` on the raw dictionary: `some` the stored array, or
`none` when the key is absent (JS `undefined`). -/
def lookupKey (subs : List (String × List (Option ω))) (t : String) :
    Option (List (Option ω)) :=
  (subs.find? (fun p => p.1 = t)).map (fun p => p.2)

/-- Read `this.subscribers[t]`. -/
def Observable.lookup (ob : Observable ω) (t : String) :
    Option (List (Option ω)) :=
  lookupKey ob.subscribers t

/-- The `Observable` constructor (`src/main.ts` lines 105-111): stores the
accepted tags and initializes `subscribers[t] = []` for each accepted tag,
in order. -/
def Observable.create (acceptedEventTypes : List String) : Observable ω :=
  { acceptedEventTypes := acceptedEventTypes
    subscribers := acceptedEventTypes.foldl (fun subs t => setKey subs t []) [] }

/-- `Observable.subscribe(eventType, observer)` (`src/main.ts` lines
118-128): throws `UnacceptedEventType` for an unknown tag, else pushes the
observer reference onto that tag's array (no dedup). -/
def Observable.subscribe [DecidableEq ω] (ob : Observable ω)
    (eventType : String) (observer : ω) : Observable ω × Option ObsError :=
  if eventType ∈ ob.acceptedEventTypes then
    match ob.lookup eventType with
    | some l =>
      ({ ob with subscribers := setKey ob.subscribers eventType (l ++ [some observer]) },
       none)
    | none => (ob, some .TypeError)
  else (ob, some .UnacceptedEventType)

/-- `Observable.unsubscribe(eventType, observer)` (`src/main.ts` lines
135-157). After the accepted-tag and emptiness checks, the source runs
`for (subscriber of list) if (subscriber === observer)
{ delete list[indexOf(subscriber)] }` and then throws
`"Could not remove Observer: Observer not found."` unconditionally.
The loop's net effect is to replace every slot holding `observer` by a
hole: holes iterate as `undefined`, which never `===` a real reference,
and when the loop reaches an occurrence of `observer`, every earlier
occurrence has already been deleted, so `indexOf` returns the current
index. `delete` never changes the array length, and the final `throw`
is reached on every path through the loop. -/
def Observable.unsubscribe [DecidableEq ω] (ob : Observable ω)
    (eventType : String) (observer : ω) : Observable ω × Option ObsError :=
  if eventType ∈ ob.acceptedEventTypes then
    match ob.lookup eventType with
    | some l =>
      if l.length = 0 then (ob, some .NoSubscribers)
      else
        let removed := l.map (fun e => if e = some observer then none else e)
        ({ ob with subscribers := setKey ob.subscribers eventType removed },
         some .ObserverNotFound)
    | none => (ob, some .TypeError)
  else (ob, some .UnacceptedEventType)

/-- One subscriber-side effect of a notify call: `_update` on the observer
`oid` either invoked callback `callback` with `payload`, or warned. -/
inductive NotifyEvent (ω : Type) (α : Type) where
  | invoked (oid : ω) (callback : Nat) (payload : ObserverData α)
  | warned (oid : ω)
deriving DecidableEq, Repr

/-- The notify loop (`src/main.ts` lines 178-180): call `_update` on every
slot in order. A hole iterates as `undefined`, so `undefined._update`
throws a `TypeError`; an `_update` throw aborts the remaining
notifications. Returns the events that happened before any throw, and the
thrown error if any. -/
def notifyLoop (env : ω → Observer) (eventType : String) (data : α) :
    List (Option ω) → List (NotifyEvent ω α) × Option ObsError
  | [] => ([], none)
  | none :: _ => ([], some .TypeError)
  | some oid :: rest =>
    match (env oid).update ⟨eventType, data⟩ with
    | .error e => ([], some e)
    | .ok .warned =>
      let r := notifyLoop env eventType data rest
      (.warned oid :: r.1, r.2)
    | .ok (.invoked callback payload) =>
      let r := notifyLoop env eventType data rest
      (.invoked oid callback payload :: r.1, r.2)

/-- `Observable.notifyAllSubscribers(eventType, data)` (`src/main.ts` lines
164-181): throws `UnacceptedEventType` for an unknown tag, throws
`NoSubscribers` when the tag's array has length 0, otherwise runs the
notify loop with payload `{ eventType, data }`. The subscriber dictionary
is never mutated. -/
def Observable.notifyAllSubscribers (ob : Observable ω) (env : ω → Observer)
    (eventType : String) (data : α) :
    List (NotifyEvent ω α) × Option ObsError :=
  if eventType ∈ ob.acceptedEventTypes then
    match ob.lookup eventType with
    | some l =>
      if l.length = 0 then ([], some .NoSubscribers)
      else notifyLoop env eventType data l
    | none => ([], some .TypeError)
  else ([], some .UnacceptedEventType)

/-- A screen coordinate pair (`clientX`/`clientY`). -/
structure Point where
  x : Int
  y : Int
deriving DecidableEq, Repr

/-- `Interface._touchState` (`src/main.ts` lines 220-230). -/
structure TouchState where
  touch_start : Point
  touch_last_pos : Point
  touch_moved : Bool
deriving DecidableEq, Repr

/-- The accepted tag list of `InstructionObservable`
(`src/main.ts` line 204). -/
def instructionEventTypes : List String :=
  ["slide_left", "slide_right", "slide_up", "slide_down", "single_touch"]

/-- The `InstructionEventType` union type (`src/main.ts` line 187); used as
the parameter type of `on` / `addEventListener` / `removeEventListener`,
so those methods can only ever be called with one of the five tags. -/
inductive InstructionEventType where
  | slide_left
  | slide_right
  | slide_up
  | slide_down
  | single_touch
deriving DecidableEq, Repr

/-- The string value of an `InstructionEventType`. -/
def InstructionEventType.toTag : InstructionEventType → String
  | .slide_left => "slide_left"
  | .slide_right => "slide_right"
  | .slide_up => "slide_up"
  | .slide_down => "slide_down"
  | .single_touch => "single_touch"

/-- State of an `Interface` object (`src/main.ts` lines 211-325). The five
`_instructionObservers` are distinct objects, one per tag; we use their tag
string as their reference identity (`ω = String`), and keep the heap of
observer objects as the function `_instructionObservers`. -/
structure Interface where
  _touchState : TouchState
  _instructionObservable : Observable String
  _instructionObservers : String → Observer

/-- The `Interface` constructor (`src/main.ts` lines 251-261): a fresh
`InstructionObservable`, five fresh observers (one per tag, `customUpdate`
unset), each subscribed under its own tag, and a zeroed touch state. -/
def Interface.init : Interface :=
  let ob0 : Observable String := Observable.create instructionEventTypes
  let ob1 := (ob0.subscribe "slide_left" "slide_left").1
  let ob2 := (ob1.subscribe "slide_right" "slide_right").1
  let ob3 := (ob2.subscribe "slide_up" "slide_up").1
  let ob4 := (ob3.subscribe "slide_down" "slide_down").1
  let ob5 := (ob4.subscribe "single_touch" "single_touch").1
  { _touchState := ⟨⟨0, 0⟩, ⟨0, 0⟩, false⟩
    _instructionObservable := ob5
    _instructionObservers := fun t => ⟨t, none⟩ }

/-- The `touchstart` handler (`src/main.ts` lines 266-270). -/
def Interface.touchStart (i : Interface) (x y : Int) : Interface :=
  { i with _touchState :=
      { i._touchState with touch_start := ⟨x, y⟩, touch_moved := false } }

/-- The `touchmove` handler (`src/main.ts` lines 272-276). -/
def Interface.touchMove (i : Interface) (x y : Int) : Interface :=
  { i with _touchState :=
      { i._touchState with touch_last_pos := ⟨x, y⟩, touch_moved := true } }

/-- The `touchend` handler (`src/main.ts` lines 278-296): computes the
displacement, classifies it through the if/else-if chain (each slide
condition conjoined with `touch_moved`), and notifies the instruction
observable with the current touch state as data — or `null` (here `none`)
for `single_touch`. Returns the events and thrown error of the notify
call; the handler itself mutates nothing. -/
def Interface.touchEnd (i : Interface) :
    List (NotifyEvent String (Option TouchState)) × Option ObsError :=
  let diferenceX := i._touchState.touch_start.x - i._touchState.touch_last_pos.x
  let diferenceY := i._touchState.touch_start.y - i._touchState.touch_last_pos.y
  if diferenceX > 50 ∧ i._touchState.touch_moved then
    i._instructionObservable.notifyAllSubscribers i._instructionObservers
      "slide_left" (some i._touchState)
  else if diferenceX < -50 ∧ i._touchState.touch_moved then
    i._instructionObservable.notifyAllSubscribers i._instructionObservers
      "slide_right" (some i._touchState)
  else if diferenceY > 50 ∧ i._touchState.touch_moved then
    i._instructionObservable.notifyAllSubscribers i._instructionObservers
      "slide_up" (some i._touchState)
  else if diferenceY < -50 ∧ i._touchState.touch_moved then
    i._instructionObservable.notifyAllSubscribers i._instructionObservers
      "slide_down" (some i._touchState)
  else
    i._instructionObservable.notifyAllSubscribers i._instructionObservers
      "single_touch" none

/-- `Interface.on(eventType, callback)` (`src/main.ts` lines 304-308):
looks up the pre-created observer for the tag and sets its callback. -/
def Interface.on (i : Interface) (eventType : InstructionEventType)
    (callback : Nat) : Interface :=
  { i with _instructionObservers := fun t =>
      if t = eventType.toTag then (i._instructionObservers t).setCustomUpdate callback
      else i._instructionObservers t }

/-- `Interface.addEventListener` (`src/main.ts` lines 313-315): alias for
`on`. -/
def Interface.addEventListener (i : Interface)
    (eventType : InstructionEventType) (callback : Nat) : Interface :=
  i.on eventType callback

/-- `Interface.removeEventListener(eventType)` (`src/main.ts` lines
320-324): unsets the callback of that tag's observer. -/
def Interface.removeEventListener (i : Interface)
    (eventType : InstructionEventType) : Interface :=
  { i with _instructionObservers := fun t =>
      if t = eventType.toTag then (i._instructionObservers t).unsetCustomUpdate
      else i._instructionObservers t }

/-- Modelled from the spec (§4.4): the classification priority chain in the
spec's own words — `dx > 50` gives `slide_left`, else `dx < -50` gives
`slide_right`, else `dy > 50` gives `slide_up`, else `dy < -50` gives
`slide_down`, else `single_touch`, the first four each gated by
`touch_moved`. Used only to compare against `Interface.touchEnd`. -/
def specClassify (ts : TouchState) : String :=
  let dx := ts.touch_start.x - ts.touch_last_pos.x
  let dy := ts.touch_start.y - ts.touch_last_pos.y
  if ts.touch_moved ∧ dx > 50 then "slide_left"
  else if ts.touch_moved ∧ dx < -50 then "slide_right"
  else if ts.touch_moved ∧ dy > 50 then "slide_up"
  else if ts.touch_moved ∧ dy < -50 then "slide_down"
  else "single_touch"

/-- Modelled from the spec (§4.4): the payload data of a classified
gesture — the current touch state, or `null` for `single_touch`. -/
def specPayload (ts : TouchState) : Option TouchState :=
  if specClassify ts = "single_touch" then none else some ts

/-- The subscriber-side effect a notify produces for one live slot whose
observer's tag matches the notified tag: callback invocation with the
payload when a callback is set, the warning otherwise. (The `none` case is
junk — it is only applied to hole-free lists.) -/
def expectedEvent [Inhabited ω] (env : ω → Observer) (t : String) (data : α) :
    Option ω → NotifyEvent ω α
  | none => .warned default
  | some oid =>
    match (env oid).customUpdate with
    | none => .warned oid
    | some callback => .invoked oid callback ⟨t, data⟩

/-- The bookkeeping invariant of an Observable's subscriber dictionary:
every key is an accepted tag, and every accepted tag has an entry
(possibly an empty list). -/
def Observable.KeysInv (ob : Observable ω) : Prop :=
  (∀ p ∈ ob.subscribers, p.1 ∈ ob.acceptedEventTypes) ∧
  (∀ t ∈ ob.acceptedEventTypes, (ob.lookup t).isSome = true)

/-- The wiring established by the `Interface` constructor and preserved by
every exposed method: the instruction observable is exactly the
constructor's (one subscription per tag, no unsubscription path exists),
and each pre-created observer accepts its own tag. -/
def Interface.Wired (i : Interface) : Prop :=
  i._instructionObservable = Interface.init._instructionObservable ∧
  ∀ t : String, (i._instructionObservers t).acceptedEventType = t

/-- The `touchend` handler is exactly a notify of the spec-side
classification with the spec-side payload (shared helper lemma). -/
theorem touchEnd_spec (i : Interface) :
    i.touchEnd = i._instructionObservable.notifyAllSubscribers
      i._instructionObservers (specClassify i._touchState)
      (specPayload i._touchState) := by
  obtain ⟨ts, ob, env⟩ := i
  obtain ⟨s, l, mv⟩ := ts
  unfold Interface.touchEnd specPayload specClassify
  cases mv with
  | false => simp
  | true =>
    by_cases h1 : s.x - l.x > 50
    · simp [h1]
    · by_cases h2 : s.x - l.x < -50
      · simp [h1, h2]
      · by_cases h3 : s.y - l.y > 50
        · simp [h1, h2, h3]
        · by_cases h4 : s.y - l.y < -50
          · simp [h1, h2, h3, h4]
          · simp [h1, h2, h3, h4]

/-- Claim C1: on every touch-end the Interface computes
`dx = touch_start.x - touch_last_pos.x` and
`dy = touch_start.y - touch_last_pos.y` and classifies in exact priority
order, the first four conditions gated by `touch_moved`: `dx > 50` gives
`slide_left`, else `dx < -50` gives `slide_right`, else `dy > 50` gives
`slide_up`, else `dy < -50` gives `slide_down`, else (including
`touch_moved` false) `single_touch`; exactly one classification fires
(horizontal before vertical), and the classified tag is passed to
`notifyAllSubscribers` with the current touch state as payload data, or
`null` for `single_touch`. Stated as: the handler equals a single notify
of the spec-side classification with the spec-side payload. -/
theorem C1_touchend_classification (i : Interface) :
    i.touchEnd = i._instructionObservable.notifyAllSubscribers
      i._instructionObservers (specClassify i._touchState)
      (specPayload i._touchState) :=
  touchEnd_spec i

/-- Claim C4: for every tag not in an Observable's accepted set, each of
`subscribe`, `unsubscribe` and `notifyAllSubscribers` fails with
`UnacceptedEventType` and leaves the Observable's state unchanged. -/
theorem C4_unaccepted_tag {ω α : Type} [DecidableEq ω] (ob : Observable ω)
    (env : ω → Observer) (t : String) (o : ω) (data : α)
    (ht : t ∉ ob.acceptedEventTypes) :
    ob.subscribe t o = (ob, some .UnacceptedEventType) ∧
    ob.unsubscribe t o = (ob, some .UnacceptedEventType) ∧
    ob.notifyAllSubscribers env t data = ([], some .UnacceptedEventType) := by
  refine ⟨?_, ?_, ?_⟩ <;>
    simp [Observable.subscribe, Observable.unsubscribe,
      Observable.notifyAllSubscribers, ht]

/-- Witness for C4 at a concrete unaccepted tag. -/
theorem C4_unaccepted_tag_witness :
    (Observable.create ["a"] : Observable Nat).subscribe "b" 0 =
        (Observable.create ["a"], some .UnacceptedEventType) ∧
      (Observable.create ["a"] : Observable Nat).unsubscribe "b" 0 =
        (Observable.create ["a"], some .UnacceptedEventType) ∧
      (Observable.create ["a"] : Observable Nat).notifyAllSubscribers
        (fun _ => ⟨"a", none⟩) "b" (37 : Nat) =
        ([], some .UnacceptedEventType) :=
  C4_unaccepted_tag (Observable.create ["a"]) (fun _ => ⟨"a", none⟩)
    "b" 0 37 (by decide)

/-- Claim C5: `_update(payload)` fails with `TagMismatch` iff
`payload.eventType` differs from the Observer's accepted tag; when the
tags match it succeeds — warning-only no-op when no callback is set,
otherwise the callback is invoked with the payload (return value
discarded). -/
theorem C5_update_behavior {α : Type} (o : Observer) (d : ObserverData α) :
    (o.update d = .error .TagMismatch ↔ d.eventType ≠ o.acceptedEventType) ∧
    (d.eventType = o.acceptedEventType →
      o.update d = .ok (match o.customUpdate with
        | none => .warned
        | some callback => .invoked callback d)) := by
  by_cases he : d.eventType = o.acceptedEventType
  · cases hc : o.customUpdate <;> simp [Observer.update, he, hc]
  · simp [Observer.update, he]

/-- Witness for C5: matching tag with a set callback invokes it with the
payload. -/
theorem C5_update_behavior_witness :
    (⟨"a", some 7⟩ : Observer).update ⟨"a", (3 : Nat)⟩ =
      .ok (.invoked 7 ⟨"a", 3⟩) :=
  (C5_update_behavior ⟨"a", some 7⟩ ⟨"a", 3⟩).2 rfl

/-- Writing key `t` then reading `t` yields the written list. -/
theorem lookupKey_setKey_self {ω : Type} (subs : List (String × List (Option ω)))
    (t : String) (l : List (Option ω)) :
    lookupKey (setKey subs t l) t = some l := by
  induction subs with
  | nil => simp [setKey, lookupKey]
  | cons p rest ih =>
    obtain ⟨k, v⟩ := p
    by_cases hk : k = t
    · simp [setKey, hk, lookupKey]
    · simpa [setKey, hk, lookupKey, List.find?] using ih

/-- Writing key `t` leaves every other key's value unchanged. -/
theorem lookupKey_setKey_ne {ω : Type} (subs : List (String × List (Option ω)))
    (t k : String) (l : List (Option ω)) (hk : k ≠ t) :
    lookupKey (setKey subs t l) k = lookupKey subs k := by
  induction subs with
  | nil => simp [setKey, lookupKey, List.find?, hk, Ne.symm hk]
  | cons p rest ih =>
    obtain ⟨k2, v⟩ := p
    by_cases h2 : k2 = t
    · subst h2
      simp [setKey, lookupKey, List.find?, Ne.symm hk, hk]
    · by_cases h3 : k2 = k
      · subst h3
        simp [setKey, h2, lookupKey, List.find?]
      · simpa [setKey, h2, lookupKey, List.find?, h3] using ih

/-- Every entry of `setKey subs t l` either has key `t` or was already in
`subs`. -/
theorem mem_setKey {ω : Type} {subs : List (String × List (Option ω))}
    {t : String} {l : List (Option ω)} {p : String × List (Option ω)}
    (hp : p ∈ setKey subs t l) : p.1 = t ∨ p ∈ subs := by
  induction subs with
  | nil =>
    simp [setKey] at hp
    subst hp
    exact Or.inl rfl
  | cons q rest ih =>
    obtain ⟨k, v⟩ := q
    by_cases hk : k = t
    · simp [setKey, hk] at hp
      rcases hp with hp | hp
      · subst hp; exact Or.inl rfl
      · exact Or.inr (List.mem_cons_of_mem _ hp)
    · simp [setKey, hk] at hp
      rcases hp with hp | hp
      · subst hp; exact Or.inr (List.mem_cons_self _ _)
      · rcases ih hp with h | h
        · exact Or.inl h
        · exact Or.inr (List.mem_cons_of_mem _ h)

/-- The constructor's initialization loop does not touch keys outside the
accepted list. -/
theorem lookupKey_initLoop_not_mem {ω : Type}
    (accepted : List String) (init : List (String × List (Option ω)))
    (t : String) (ht : t ∉ accepted) :
    lookupKey (accepted.foldl (fun subs u => setKey subs u []) init) t =
      lookupKey init t := by
  induction accepted generalizing init with
  | nil => rfl
  | cons u rest ih =>
    have hur : t ∉ rest := fun h => ht (List.mem_cons_of_mem _ h)
    have hut : t ≠ u := fun h => ht (h ▸ List.mem_cons_self u rest)
    calc lookupKey ((u :: rest).foldl (fun subs v => setKey subs v []) init) t
        = lookupKey (rest.foldl (fun subs v => setKey subs v []) (setKey init u [])) t := rfl
      _ = lookupKey (setKey init u []) t := ih _ hur
      _ = lookupKey init t := lookupKey_setKey_ne init u t [] hut

/-- After the constructor's initialization loop, every accepted tag maps to
the empty list. -/
theorem lookupKey_initLoop_mem {ω : Type}
    (accepted : List String) (init : List (String × List (Option ω)))
    (t : String) (ht : t ∈ accepted) :
    lookupKey (accepted.foldl (fun subs u => setKey subs u []) init) t =
      some [] := by
  induction accepted generalizing init with
  | nil => cases ht
  | cons u rest ih =>
    by_cases hr : t ∈ rest
    · exact ih _ hr
    · have hut : t = u := by
        rcases List.mem_cons.mp ht with h | h
        · exact h
        · exact absurd h hr
      subst hut
      calc lookupKey ((t :: rest).foldl (fun subs v => setKey subs v []) init) t
          = lookupKey (rest.foldl (fun subs v => setKey subs v []) (setKey init t [])) t := rfl
        _ = lookupKey (setKey init t []) t := lookupKey_initLoop_not_mem rest _ t hr
        _ = some [] := lookupKey_setKey_self init t []

/-- Every key produced by the constructor's initialization loop is an
accepted tag or came from the accumulator. -/
theorem mem_initLoop {ω : Type}
    (accepted : List String) (init : List (String × List (Option ω)))
    {p : String × List (Option ω)}
    (hp : p ∈ accepted.foldl (fun subs u => setKey subs u []) init) :
    p.1 ∈ accepted ∨ p ∈ init := by
  induction accepted generalizing init with
  | nil => exact Or.inr hp
  | cons u rest ih =>
    rcases ih (setKey init u []) hp with h | h
    · exact Or.inl (List.mem_cons_of_mem _ h)
    · rcases mem_setKey h with h2 | h2
      · exact Or.inl (h2 ▸ List.mem_cons_self u rest)
      · exact Or.inr h2

/-- On an accepted tag, a fresh Observable's lookup gives the empty list. -/
theorem lookup_create {ω : Type} (accepted : List String) (t : String)
    (ht : t ∈ accepted) :
    (Observable.create accepted : Observable ω).lookup t = some [] :=
  lookupKey_initLoop_mem accepted [] t ht

/-- `Observer.update` can only fail with `TagMismatch`. -/
theorem update_error_eq {α : Type} (o : Observer) (d : ObserverData α)
    (e : ObsError) (h : o.update d = .error e) : e = ObsError.TagMismatch := by
  unfold Observer.update at h
  split at h
  · cases h; rfl
  · cases hc : o.customUpdate <;> rw [hc] at h <;> cases h

/-- The notify loop never throws `NoSubscribers`. -/
theorem notifyLoop_ne_noSubscribers {ω α : Type} (env : ω → Observer)
    (t : String) (data : α) (l : List (Option ω)) :
    (notifyLoop env t data l).2 ≠ some ObsError.NoSubscribers := by
  induction l with
  | nil => simp [notifyLoop]
  | cons e rest ih =>
    cases e with
    | none => simp [notifyLoop]
    | some oid =>
      unfold notifyLoop
      cases hu : (env oid).update (⟨t, data⟩ : ObserverData α) with
      | error e2 =>
        have := update_error_eq (env oid) _ e2 hu
        subst this
        simp
      | ok r => cases r <;> simpa using ih

/-- On a hole-free list of observers that all accept the notified tag, the
notify loop succeeds and produces exactly one event per slot, in order. -/
theorem notifyLoop_all_live {ω α : Type} [Inhabited ω] (env : ω → Observer)
    (t : String) (data : α) (l : List (Option ω))
    (h : ∀ e ∈ l, ∃ oid, e = some oid ∧ (env oid).acceptedEventType = t) :
    notifyLoop env t data l = (l.map (expectedEvent env t data), none) := by
  induction l with
  | nil => rfl
  | cons e rest ih =>
    obtain ⟨oid, he, htag⟩ := h e (List.mem_cons_self e rest)
    subst he
    have hrest := ih (fun e2 he2 => h e2 (List.mem_cons_of_mem _ he2))
    cases hc : (env oid).customUpdate with
    | none => simp [notifyLoop, Observer.update, htag, hc, hrest, expectedEvent]
    | some callback =>
      simp [notifyLoop, Observer.update, htag, hc, hrest, expectedEvent]


/-- Compute lemma: `subscribe` on an accepted tag with an existing entry
appends the reference and throws nothing. -/
theorem subscribe_found {ω : Type} [DecidableEq ω] (ob : Observable ω)
    (t : String) (o : ω) (l : List (Option ω))
    (ht : t ∈ ob.acceptedEventTypes) (hl : ob.lookup t = some l) :
    ob.subscribe t o =
      ({ ob with subscribers := setKey ob.subscribers t (l ++ [some o]) }, none) := by
  unfold Observable.subscribe
  rw [if_pos ht, hl]

/-- Compute lemma: `unsubscribe` on an accepted tag with a non-empty entry
replaces every slot holding the reference by a hole and throws
`ObserverNotFound`. -/
theorem unsubscribe_nonempty {ω : Type} [DecidableEq ω] (ob : Observable ω)
    (t : String) (o : ω) (l : List (Option ω))
    (ht : t ∈ ob.acceptedEventTypes) (hl : ob.lookup t = some l)
    (hlen : ¬ l.length = 0) :
    ob.unsubscribe t o =
      ({ ob with subscribers := setKey ob.subscribers t (l.map (fun e => if e = some o then none else e)) },
       some .ObserverNotFound) := by
  unfold Observable.unsubscribe
  rw [if_pos ht, hl]
  simp [hlen]

/-- Compute lemma: `notifyAllSubscribers` on an accepted tag whose entry
has length 0 throws `NoSubscribers`. -/
theorem notify_empty {ω α : Type} (ob : Observable ω) (env : ω → Observer)
    (t : String) (data : α) (ht : t ∈ ob.acceptedEventTypes)
    (hl : ob.lookup t = some []) :
    ob.notifyAllSubscribers env t data = ([], some .NoSubscribers) := by
  unfold Observable.notifyAllSubscribers
  rw [if_pos ht, hl]
  rfl

/-- Compute lemma: `notifyAllSubscribers` on an accepted tag with a
non-empty entry runs the notify loop over it. -/
theorem notify_nonempty {ω α : Type} (ob : Observable ω) (env : ω → Observer)
    (t : String) (data : α) (l : List (Option ω))
    (ht : t ∈ ob.acceptedEventTypes) (hl : ob.lookup t = some l)
    (hlen : ¬ l.length = 0) :
    ob.notifyAllSubscribers env t data = notifyLoop env t data l := by
  unfold Observable.notifyAllSubscribers
  rw [if_pos ht, hl]
  simp [hlen]

/-- Claim C2 (amended): for an accepted tag `t` whose entry is the list
`l`: when `l` is empty, `notifyAllSubscribers(t, data)` fails with
`NoSubscribers`; when `l` is non-empty and every entry is a live
(not-deleted) observer whose accepted tag equals `t`, the call succeeds
and produces exactly one `_update` effect per list entry, in list order
(callback invocation with payload `{eventType: t, data}` when a callback
is set, the warning otherwise); in particular, a single `subscribe(t, o)`
onto the empty list, with `o` accepting `t` and having a callback set,
makes the call invoke `o`'s callback exactly once with that payload. -/
theorem C2_notify_accepted {ω α : Type} [DecidableEq ω] [Inhabited ω]
    (ob : Observable ω) (env : ω → Observer) (t : String) (data : α)
    (l : List (Option ω)) (ht : t ∈ ob.acceptedEventTypes)
    (hl : ob.lookup t = some l) :
    (l = [] → ob.notifyAllSubscribers env t data = ([], some .NoSubscribers)) ∧
    (l ≠ [] → (∀ e ∈ l, ∃ oid, e = some oid ∧ (env oid).acceptedEventType = t) →
      ob.notifyAllSubscribers env t data =
        (l.map (expectedEvent env t data), none)) ∧
    (∀ (o : ω) (callback : Nat), (env o).acceptedEventType = t →
      (env o).customUpdate = some callback → l = [] →
      ((ob.subscribe t o).1).notifyAllSubscribers env t data =
        ([.invoked o callback ⟨t, data⟩], none)) := by
  refine ⟨?_, ?_, ?_⟩
  · intro he
    subst he
    exact notify_empty ob env t data ht hl
  · intro hne hall
    have hlen : ¬ l.length = 0 := by simpa [List.length_eq_zero] using hne
    rw [notify_nonempty ob env t data l ht hl hlen]
    exact notifyLoop_all_live env t data l hall
  · intro o callback htag hc he
    subst he
    rw [subscribe_found ob t o [] ht hl]
    simp only [List.nil_append]
    rw [notify_nonempty { ob with subscribers := setKey ob.subscribers t [some o] }
      env t data [some o] ht (lookupKey_setKey_self ob.subscribers t [some o]) (by simp)]
    simp [notifyLoop, Observer.update, htag, hc]

/-- Counterexample to claim C2 as stated: the subscriber list for accepted
tag `b` is non-empty (a single subscribe of observer `0` happened), yet
`notifyAllSubscribers` does not succeed and does not invoke the
subscribed observer's callback — observer `0` accepts tag `a`, so its
`_update` throws `TagMismatch`. -/
theorem C2_notify_accepted_cex :
    (((Observable.create ["a", "b"] : Observable Nat).subscribe "b" 0).1).notifyAllSubscribers
        (fun _ => ⟨"a", some 7⟩) "b" (5 : Nat) = ([], some .TagMismatch) := by
  decide

/-- Witness for C2 (amended) at a concrete Observable: empty list gives
`NoSubscribers`; after one matching subscribe, exactly one callback
invocation with payload `{eventType, data}`. -/
theorem C2_notify_accepted_witness :
    (Observable.create ["a"] : Observable Nat).notifyAllSubscribers
        (fun _ => ⟨"a", some 3⟩) "a" (0 : Nat) = ([], some .NoSubscribers) ∧
    (((Observable.create ["a"] : Observable Nat).subscribe "a" 5).1).notifyAllSubscribers
        (fun _ => ⟨"a", some 3⟩) "a" (0 : Nat) = ([.invoked 5 3 ⟨"a", 0⟩], none) :=
  ⟨(C2_notify_accepted (Observable.create ["a"]) (fun _ => ⟨"a", some 3⟩)
      "a" 0 [] (by decide) (by decide)).1 rfl,
   (C2_notify_accepted (Observable.create ["a"]) (fun _ => ⟨"a", some 3⟩)
      "a" 0 [] (by decide) (by decide)).2.2 5 3 rfl rfl rfl⟩

/-- Claim C3, evaluated at the failing input: observer `0` is the only
subscriber of accepted tag `a`; `unsubscribe("a", 0)` does clear its slot
(the stored list becomes `[none]`, a hole) and nevertheless throws
`ObserverNotFound` — the unconditional `throw` after the removal loop
fires even though the observer was present and removed. -/
theorem C3_unsubscribe_always_throws :
    (((Observable.create ["a"] : Observable Nat).subscribe "a" 0).1).unsubscribe "a" 0 =
      (⟨["a"], [("a", [none])]⟩, some .ObserverNotFound) := by
  decide

/-- Claim C6 (amended): for an accepted tag `t` whose subscriber list is
currently empty and an observer `o` whose accepted tag is `t`, two
`subscribe(t, o)` calls (no identity check or dedup) make a subsequent
`notifyAllSubscribers(t, data)` produce exactly two `_update` effects on
`o`, in order — two callback invocations when `o`'s callback is set, two
warnings otherwise. -/
theorem C6_double_subscribe {ω α : Type} [DecidableEq ω] (ob : Observable ω)
    (env : ω → Observer) (t : String) (o : ω) (data : α)
    (ht : t ∈ ob.acceptedEventTypes) (hl : ob.lookup t = some [])
    (htag : (env o).acceptedEventType = t) :
    (((ob.subscribe t o).1.subscribe t o).1).notifyAllSubscribers env t data =
      ((match (env o).customUpdate with
        | some callback => [.invoked o callback ⟨t, data⟩, .invoked o callback ⟨t, data⟩]
        | none => [.warned o, .warned o]), none) := by
  rw [subscribe_found ob t o [] ht hl]
  simp only [List.nil_append]
  rw [subscribe_found { ob with subscribers := setKey ob.subscribers t [some o] }
    t o [some o] ht (lookupKey_setKey_self ob.subscribers t [some o])]
  simp only [List.cons_append, List.nil_append]
  rw [notify_nonempty
    { ob with subscribers := setKey (setKey ob.subscribers t [some o]) t [some o, some o] }
    env t data [some o, some o] ht
    (lookupKey_setKey_self (setKey ob.subscribers t [some o]) t [some o, some o]) (by simp)]
  cases hc : (env o).customUpdate <;>
    simp [notifyLoop, Observer.update, htag, hc]

/-- Counterexample to claim C6 as stated: observer `1` (accepting tag `c`)
is subscribed twice under accepted tag `b`; the notify call invokes its
`_update` only once — the first invocation throws `TagMismatch` and aborts
the loop — not exactly twice. -/
theorem C6_double_subscribe_cex :
    ((((Observable.create ["b"] : Observable Nat).subscribe "b" 1).1.subscribe "b" 1).1).notifyAllSubscribers
        (fun _ => ⟨"c", some 7⟩) "b" (5 : Nat) = ([], some .TagMismatch) := by
  decide

/-- Witness for C6 (amended): two subscribes of a matching observer with a
set callback give exactly two invocations. -/
theorem C6_double_subscribe_witness :
    ((((Observable.create ["b"] : Observable Nat).subscribe "b" 4).1.subscribe "b" 4).1).notifyAllSubscribers
        (fun _ => ⟨"b", some 9⟩) "b" (2 : Nat) =
      ([.invoked 4 9 ⟨"b", 2⟩, .invoked 4 9 ⟨"b", 2⟩], none) :=
  C6_double_subscribe (Observable.create ["b"]) (fun _ => ⟨"b", some 9⟩)
    "b" 4 2 (by decide) (by decide) rfl

/-- Claim C10: for an accepted tag `t` with entry `l` containing observer
`o`, `unsubscribe(t, o)` clears every slot holding `o` in place (no
compaction), so the stored list keeps its length; consequently a later
`notifyAllSubscribers(t, _)` or `unsubscribe(t, _)` on that tag cannot
fail with `NoSubscribers` — the emptiness check tests the length, which
never shrank — even when every slot is now a hole. -/
theorem C10_unsubscribe_holes {ω α : Type} [DecidableEq ω] (ob : Observable ω)
    (t : String) (o : ω) (l : List (Option ω))
    (ht : t ∈ ob.acceptedEventTypes) (hl : ob.lookup t = some l)
    (ho : some o ∈ l) :
    ((ob.unsubscribe t o).1).lookup t =
        some (l.map (fun e => if e = some o then none else e)) ∧
    (l.map (fun e => if e = some o then none else e)).length = l.length ∧
    (∀ o2 : ω, (((ob.unsubscribe t o).1).unsubscribe t o2).2 ≠
        some ObsError.NoSubscribers) ∧
    (∀ (env : ω → Observer) (data : α),
      (((ob.unsubscribe t o).1).notifyAllSubscribers env t data).2 ≠
        some ObsError.NoSubscribers) := by
  have hne : l ≠ [] := by
    rintro rfl
    cases ho
  have hlen : ¬ l.length = 0 := by simpa [List.length_eq_zero] using hne
  rw [unsubscribe_nonempty ob t o l ht hl hlen]
  simp only []
  have hlook :
      ({ ob with subscribers := setKey ob.subscribers t (l.map (fun e => if e = some o then none else e)) } :
        Observable ω).lookup t =
        some (l.map (fun e => if e = some o then none else e)) :=
    lookupKey_setKey_self ob.subscribers t _
  have hlen2 : ¬ (l.map (fun e => if e = some o then none else e)).length = 0 := by
    simpa [List.length_map] using hlen
  refine ⟨hlook, List.length_map _ _, ?_, ?_⟩
  · intro o2
    rw [unsubscribe_nonempty
      { ob with subscribers := setKey ob.subscribers t (l.map (fun e => if e = some o then none else e)) }
      t o2 (l.map (fun e => if e = some o then none else e)) ht hlook hlen2]
    simp
  · intro env data
    rw [notify_nonempty
      { ob with subscribers := setKey ob.subscribers t (l.map (fun e => if e = some o then none else e)) }
      env t data (l.map (fun e => if e = some o then none else e)) ht hlook hlen2]
    exact notifyLoop_ne_noSubscribers env t data _

/-- Witness for C10: removing the only subscriber leaves a hole
(`[none]`), and a later notify on that tag does not throw
`NoSubscribers`. -/
theorem C10_unsubscribe_holes_witness :
    (((((Observable.create ["a"] : Observable Nat).subscribe "a" 0).1).unsubscribe "a" 0).1).lookup "a" =
        some [none] ∧
    ((((((Observable.create ["a"] : Observable Nat).subscribe "a" 0).1).unsubscribe "a" 0).1).notifyAllSubscribers
        (fun _ => ⟨"a", some 3⟩) "a" (0 : Nat)).2 ≠ some ObsError.NoSubscribers :=
  ⟨(C10_unsubscribe_holes (α := Nat) (((Observable.create ["a"] : Observable Nat).subscribe "a" 0).1)
      "a" 0 [some 0] (by decide) (by decide) (by decide)).1,
   (C10_unsubscribe_holes (((Observable.create ["a"] : Observable Nat).subscribe "a" 0).1)
      "a" 0 [some 0] (by decide) (by decide) (by decide)).2.2.2
      (fun _ => ⟨"a", some 3⟩) 0⟩

/-- Overwriting an accepted tag's entry preserves the bookkeeping
invariant. -/
theorem keysInv_setKey {ω : Type} (ob : Observable ω) (t : String)
    (l : List (Option ω)) (hInv : ob.KeysInv)
    (ht : t ∈ ob.acceptedEventTypes) :
    (Observable.mk ob.acceptedEventTypes (setKey ob.subscribers t l)).KeysInv := by
  constructor
  · intro p hp
    rcases mem_setKey hp with h | h
    · simpa [h] using ht
    · exact hInv.1 p h
  · intro u hu
    by_cases hut : u = t
    · subst hut
      simp [Observable.lookup, lookupKey_setKey_self]
    · have := hInv.2 u hu
      simpa [Observable.lookup,
        lookupKey_setKey_ne ob.subscribers t u l hut] using this

/-- Claim C8: a freshly constructed Observable has an (empty) subscriber
list for every accepted tag, and the invariant — every dictionary key is
an accepted tag, and every accepted tag has an entry — holds at
construction and is preserved by `subscribe` and `unsubscribe`
(`notifyAllSubscribers` never writes the dictionary, which in this model
is definitional: it returns only events). -/
theorem C8_subscribers_invariant {ω : Type} [DecidableEq ω] :
    (∀ (accepted : List String) (t : String), t ∈ accepted →
      (Observable.create accepted : Observable ω).lookup t = some []) ∧
    (∀ accepted : List String,
      (Observable.create accepted : Observable ω).KeysInv) ∧
    (∀ (ob : Observable ω) (t : String) (o : ω), ob.KeysInv →
      ((ob.subscribe t o).1).KeysInv) ∧
    (∀ (ob : Observable ω) (t : String) (o : ω), ob.KeysInv →
      ((ob.unsubscribe t o).1).KeysInv) := by
  refine ⟨fun accepted t ht => lookup_create accepted t ht, ?_, ?_, ?_⟩
  · intro accepted
    constructor
    · intro p hp
      rcases mem_initLoop accepted [] hp with h | h
      · exact h
      · cases h
    · intro t ht
      rw [lookup_create accepted t ht]
      rfl
  · intro ob t o hInv
    by_cases ht : t ∈ ob.acceptedEventTypes
    · cases hlook : ob.lookup t with
      | none =>
        have hid : (ob.subscribe t o).1 = ob := by
          unfold Observable.subscribe
          rw [if_pos ht, hlook]
        rw [hid]
        exact hInv
      | some l =>
        rw [subscribe_found ob t o l ht hlook]
        exact keysInv_setKey ob t (l ++ [some o]) hInv ht
    · have hid : (ob.subscribe t o).1 = ob := by
        unfold Observable.subscribe
        rw [if_neg ht]
      rw [hid]
      exact hInv
  · intro ob t o hInv
    by_cases ht : t ∈ ob.acceptedEventTypes
    · cases hlook : ob.lookup t with
      | none =>
        have hid : (ob.unsubscribe t o).1 = ob := by
          unfold Observable.unsubscribe
          rw [if_pos ht, hlook]
        rw [hid]
        exact hInv
      | some l =>
        by_cases hlen : l.length = 0
        · have hid : (ob.unsubscribe t o).1 = ob := by
            unfold Observable.unsubscribe
            rw [if_pos ht, hlook]
            simp [hlen]
          rw [hid]
          exact hInv
        · rw [unsubscribe_nonempty ob t o l ht hlook hlen]
          exact keysInv_setKey ob t _ hInv ht
    · have hid : (ob.unsubscribe t o).1 = ob := by
        unfold Observable.unsubscribe
        rw [if_neg ht]
      rw [hid]
      exact hInv

/-- Witness for C8: a fresh Observable has an empty entry for its accepted
tag, and the invariant survives a concrete subscribe. -/
theorem C8_subscribers_invariant_witness :
    (Observable.create ["a"] : Observable Nat).lookup "a" = some [] ∧
    (((Observable.create ["a"] : Observable Nat).subscribe "a" 0).1).KeysInv :=
  ⟨C8_subscribers_invariant.1 ["a"] "a" (by decide),
   C8_subscribers_invariant.2.2.1 (Observable.create ["a"]) "a" 0
     ⟨by decide, by decide⟩⟩

/-- The spec-side classification always yields one of the five instruction
tags. -/
theorem specClassify_mem (ts : TouchState) :
    specClassify ts ∈ instructionEventTypes := by
  unfold specClassify instructionEventTypes
  dsimp only
  split_ifs <;> simp

/-- In the constructor-wired observable, every instruction tag's entry is
the singleton holding its own pre-created observer. -/
theorem wired_lookup (t : String) (ht : t ∈ instructionEventTypes) :
    Interface.init._instructionObservable.lookup t = some [some t] := by
  simp only [instructionEventTypes, List.mem_cons,
    List.mem_singleton, List.not_mem_nil, or_false] at ht
  rcases ht with rfl | rfl | rfl | rfl | rfl <;> decide

/-- The constructor-wired observable accepts exactly the five instruction
tags. -/
theorem wired_accepted :
    Interface.init._instructionObservable.acceptedEventTypes =
      instructionEventTypes := by
  decide

/-- The constructor establishes the wiring. -/
theorem wired_init : Interface.init.Wired :=
  ⟨rfl, fun _ => rfl⟩

/-- `on` preserves the wiring (it only sets a callback slot). -/
theorem wired_on (i : Interface) (hW : i.Wired) (e : InstructionEventType)
    (callback : Nat) : (i.on e callback).Wired := by
  refine ⟨hW.1, ?_⟩
  intro t
  by_cases h : t = e.toTag <;>
    simp [Interface.on, Observer.setCustomUpdate, h, hW.2]

/-- `removeEventListener` preserves the wiring (it only clears a callback
slot). -/
theorem wired_remove (i : Interface) (hW : i.Wired)
    (e : InstructionEventType) : (i.removeEventListener e).Wired := by
  refine ⟨hW.1, ?_⟩
  intro t
  by_cases h : t = e.toTag <;>
    simp [Interface.removeEventListener, Observer.unsetCustomUpdate, h, hW.2]

/-- `touchstart` preserves the wiring. -/
theorem wired_touchStart (i : Interface) (hW : i.Wired) (x y : Int) :
    (i.touchStart x y).Wired :=
  ⟨hW.1, hW.2⟩

/-- `touchmove` preserves the wiring. -/
theorem wired_touchMove (i : Interface) (hW : i.Wired) (x y : Int) :
    (i.touchMove x y).Wired :=
  ⟨hW.1, hW.2⟩

/-- On any wired Interface, the touch-end dispatch reaches no error branch
and produces exactly one `_update` effect: on the classified tag's own
observer, with the gesture payload. -/
theorem touchEnd_wired (i : Interface) (hW : i.Wired) :
    i.touchEnd =
      ([expectedEvent i._instructionObservers (specClassify i._touchState)
        (specPayload i._touchState) (some (specClassify i._touchState))],
       none) := by
  rw [touchEnd_spec i, hW.1]
  have ht := specClassify_mem i._touchState
  have hacc : specClassify i._touchState ∈
      Interface.init._instructionObservable.acceptedEventTypes := by
    rw [wired_accepted]
    exact ht
  rw [notify_nonempty Interface.init._instructionObservable
    i._instructionObservers (specClassify i._touchState)
    (specPayload i._touchState) [some (specClassify i._touchState)]
    hacc (wired_lookup _ ht) (by simp)]
  cases hc : (i._instructionObservers (specClassify i._touchState)).customUpdate <;>
    simp [notifyLoop, Observer.update, hW.2, hc, expectedEvent]

/-- Claim C9: for every Interface as wired by its constructor (each of the
five tags has its own pre-created observer subscribed under that tag, and
no exposed method ever unsubscribes or rewires), the touch-end dispatch
never reaches the `UnacceptedEventType` or `NoSubscribers` branches of
`notifyAllSubscribers`, and the resulting `_update` never reaches the
`TagMismatch` branch: no library error escapes a gesture dispatch (in this
model user callbacks are opaque and their own failures are the only thing
not covered), and exactly one observer-effect is produced, on the
classified tag's own observer. -/
theorem C9_wiring_safety :
    Interface.init.Wired ∧
    (∀ (i : Interface) (e : InstructionEventType) (callback : Nat),
      i.Wired → (i.on e callback).Wired) ∧
    (∀ (i : Interface) (e : InstructionEventType) (callback : Nat),
      i.Wired → (i.addEventListener e callback).Wired) ∧
    (∀ (i : Interface) (e : InstructionEventType),
      i.Wired → (i.removeEventListener e).Wired) ∧
    (∀ (i : Interface) (x y : Int),
      i.Wired → (i.touchStart x y).Wired ∧ (i.touchMove x y).Wired) ∧
    (∀ i : Interface, i.Wired →
      (i.touchEnd).2 = none ∧
      (i.touchEnd).1 = [expectedEvent i._instructionObservers
        (specClassify i._touchState) (specPayload i._touchState)
        (some (specClassify i._touchState))]) := by
  refine ⟨wired_init,
    fun i e callback hW => wired_on i hW e callback,
    fun i e callback hW => wired_on i hW e callback,
    fun i e hW => wired_remove i hW e,
    fun i x y hW => ⟨wired_touchStart i hW x y, wired_touchMove i hW x y⟩,
    fun i hW => ?_⟩
  rw [touchEnd_wired i hW]
  exact ⟨rfl, rfl⟩

/-- Witness for C9: the freshly constructed Interface (zeroed touch state,
classified `single_touch`) dispatches with no error and one warned
effect. -/
theorem C9_wiring_safety_witness :
    (Interface.init.touchEnd).2 = none ∧
    (Interface.init.touchEnd).1 = [.warned "single_touch"] :=
  C9_wiring_safety.2.2.2.2.2 Interface.init ⟨rfl, fun _ => rfl⟩

/-- Claim C7: for every wired Interface, instruction tag and callback:
after `on(t, cb)` followed by `removeEventListener(t)`, a qualifying
gesture (touch-end classified as `t`) produces only the non-fatal
missing-callback warning and no callback invocation; after `on(t, cb)`
alone, the same gesture invokes `cb` exactly once with the payload
`{eventType: t, data: touch state}` (data `null` for `single_touch`). -/
theorem C7_on_removeEventListener (i : Interface) (hW : i.Wired)
    (e : InstructionEventType) (callback : Nat)
    (hq : specClassify i._touchState = e.toTag) :
    (((i.on e callback).removeEventListener e).touchEnd =
      ([.warned e.toTag], none)) ∧
    ((i.on e callback).touchEnd =
      ([.invoked e.toTag callback ⟨e.toTag, specPayload i._touchState⟩],
       none)) := by
  have hW1 := wired_on i hW e callback
  have hW2 := wired_remove _ hW1 e
  constructor
  · rw [touchEnd_wired _ hW2]
    simp only [Interface.on, Interface.removeEventListener]
    rw [hq]
    simp [expectedEvent, Observer.unsetCustomUpdate, Observer.setCustomUpdate]
  · rw [touchEnd_wired _ hW1]
    simp only [Interface.on]
    rw [hq]
    simp [expectedEvent, Observer.setCustomUpdate]

/-- Witness for C7: a concrete slide-left gesture (start (100,100), move to
(40,100)) after `on` then `removeEventListener` warns only; with the
listener attached it invokes callback `7` once with the touch state. -/
theorem C7_on_removeEventListener_witness :
    ((((Interface.init.touchStart 100 100).touchMove 40 100).on
        InstructionEventType.slide_left 7).removeEventListener
        InstructionEventType.slide_left).touchEnd =
      ([.warned "slide_left"], none) ∧
    (((Interface.init.touchStart 100 100).touchMove 40 100).on
        InstructionEventType.slide_left 7).touchEnd =
      ([.invoked "slide_left" 7
        ⟨"slide_left", some ⟨⟨100, 100⟩, ⟨40, 100⟩, true⟩⟩], none) :=
  C7_on_removeEventListener
    ((Interface.init.touchStart 100 100).touchMove 40 100)
    ⟨rfl, fun _ => rfl⟩ InstructionEventType.slide_left 7 (by decide)
